import Mathlib

/-!
# Print support of the zathura document viewer (`print.c`)

A shallow embedding of the four functions of `print.c`:
`print`, `cb_print_end`, `cb_print_draw_page` and `cb_print_request_page_setup`.

* A nullable C pointer is an `Option`; `NULL` is `none`.
* The session object `zathura_t` is passed explicitly and returned.
* Every call the code makes to a collaborator that has an effect (GTK, cairo,
  girara, GObject, the render thread, the page renderer) is recorded, in program
  order and with its arguments, in a trace of `Call`s.  Pure getters
  (`gtk_print_context_get_width`, `zathura_document_get_path`, ...) and the
  allocation and release of the temporary status string are not traced.
* What the host decides (the outcome of the print dialog, the callbacks it fires,
  whether a cairo allocation succeeds) is an explicit argument.
-/

namespace ZathuraPrint

/-! ## Data model -/

/-- Address of a host object whose contents the code never inspects. -/
abbrev Handle := Nat

/-- Values of a C `double`, as far as the comparison `>` can tell them apart:
not-a-number, the two infinities, and the finite values (every finite double is a
rational number; the two signed zeros compare equal). -/
inductive CDouble where
  | nan
  | negInf
  | finite (q : ℚ)
  | posInf
  deriving DecidableEq

/-- The C comparison `a > b` on doubles (IEEE 754: false as soon as one side is
not-a-number). -/
def CDouble.gt : CDouble → CDouble → Bool
  | .nan, _ => false
  | _, .nan => false
  | .posInf, .posInf => false
  | .posInf, _ => true
  | .negInf, _ => false
  | .finite _, .posInf => false
  | .finite _, .negInf => true
  | .finite a, .finite b => decide (b < a)

/-- The C conversion of a `double` to `int`, as it happens when a double is passed
for an `int` parameter: the fraction is discarded (truncation toward zero); the
conversion is undefined (`none`) for not-a-number, for the infinities and when the
truncated value is outside the range of a 32-bit `int`. -/
def CDouble.to_int : CDouble → Option Int
  | .finite q =>
    let t := q.num.tdiv q.den
    if -2147483648 ≤ t ∧ t ≤ 2147483647 then some t else none
  | _ => none

/-- The C conversion of an `unsigned int` to `gint`, as it happens when the page
count and the current page index of the document are passed to the GTK setters:
the value modulo 2^32, read as a signed 32-bit integer (from 2^31 on it is
negative). -/
def gint_of_uint (n : Nat) : Int :=
  if n % 4294967296 < 2147483648 then ((n % 4294967296 : Nat) : Int)
  else ((n % 4294967296 : Nat) : Int) - 4294967296

/-- A page of a document: the geometry that `print.c` reads. -/
structure zathura_page_t where
  width : CDouble
  height : CDouble
  deriving DecidableEq

/-- A loaded document: path, current page index and pages. -/
structure zathura_document_t where
  file_path : Option String
  current_page_number : Nat
  pages : List zathura_page_t
  deriving DecidableEq

/-- A status bar item of the girara user interface; it shows `text`. -/
structure girara_statusbar_item_t where
  text : String
  deriving DecidableEq

/-- The field `zathura->print`: the settings and page setup retained between
print runs. -/
structure zathura_print_t where
  settings : Option Handle
  page_setup : Option Handle
  deriving DecidableEq

/-- The field `zathura->ui.statusbar`. -/
structure zathura_statusbar_t where
  file : Option girara_statusbar_item_t
  deriving DecidableEq

/-- The field `zathura->ui`. -/
structure zathura_ui_t where
  session : Option Handle
  statusbar : zathura_statusbar_t
  deriving DecidableEq

/-- The field `zathura->sync`. -/
structure zathura_sync_t where
  render_thread : Handle
  deriving DecidableEq

/-- The session object, restricted to the fields `print.c` touches. -/
structure zathura_t where
  document : Option zathura_document_t
  print : zathura_print_t
  ui : zathura_ui_t
  sync : zathura_sync_t
  deriving DecidableEq

/-- The GTK enumeration `GtkPageOrientation`. -/
inductive GtkPageOrientation where
  | PORTRAIT
  | LANDSCAPE
  | REVERSE_PORTRAIT
  | REVERSE_LANDSCAPE
  deriving DecidableEq

/-- A GTK page setup: its orientation, and the paper size and margins that stand
for everything else it holds. -/
structure GtkPageSetup where
  orientation : GtkPageOrientation
  paper_size : Handle
  margins : List Int
  deriving DecidableEq

/-- The GTK enumeration `GtkPrintOperationResult`. -/
inductive GtkPrintOperationResult where
  | ERROR
  | APPLY
  | CANCEL
  | IN_PROGRESS
  deriving DecidableEq

/-- The print context handed to `draw-page`: its cairo drawing context (may be
`NULL`) and its width and height. -/
structure GtkPrintContext where
  cairo : Option Handle
  width : CDouble
  height : CDouble
  deriving DecidableEq

/-- The three signals `print` connects. -/
inductive Signal where
  | draw_page
  | end_print
  | request_page_setup
  deriving DecidableEq

/-- A GTK print operation as `print.c` drives it: for each setter the argument it
was last called with (the default of a new operation before that), and the
signals connected so far. -/
structure GtkPrintOperation where
  print_settings : Option Handle
  default_page_setup : Option Handle
  allow_async : Bool
  n_pages : Int
  current_page : Int
  use_full_page : Bool
  embed_page_setup : Bool
  handlers : List Signal
  deriving DecidableEq

/-- An object handed to `g_object_ref` or `g_object_unref`. -/
inductive GObject where
  | print_settings (h : Handle)
  | page_setup (h : Handle)
  | print_operation
  deriving DecidableEq

/-- One effectful call of `print.c` to a collaborator, with its arguments. -/
inductive Call where
  | gtk_print_operation_new
  | gtk_print_operation_set_print_settings (settings : Handle)
  | gtk_print_operation_set_default_page_setup (page_setup : Handle)
  | gtk_print_operation_set_allow_async (allow : Bool)
  | gtk_print_operation_set_n_pages (n : Int)
  | gtk_print_operation_set_current_page (n : Int)
  | gtk_print_operation_set_use_full_page (full : Bool)
  | gtk_print_operation_set_embed_page_setup (embed : Bool)
  | g_signal_connect (signal : Signal)
  | gtk_print_operation_run (op : GtkPrintOperation)
  | g_object_unref (object : GObject)
  | g_object_ref (object : Option GObject)
  | girara_error (message : String)
  | girara_debug (message : String)
  | girara_statusbar_item_set_text (text : String)
  | cairo_image_surface_create (width height : Option Int)
  | cairo_create (surface : Handle)
  | cairo_surface_destroy (surface : Handle)
  | cairo_destroy (cr : Option Handle)
  | cairo_save (cr : Handle)
  | cairo_set_source_rgb (cr : Handle) (r g b : Nat)
  | cairo_rectangle (cr : Handle) (x y : Nat) (width height : CDouble)
  | cairo_fill (cr : Handle)
  | cairo_restore (cr : Handle)
  | cairo_set_source_surface (cr : Handle) (surface : Handle) (x y : Nat)
  | cairo_paint (cr : Handle)
  | render_lock (render_thread : Handle)
  | render_unlock (render_thread : Handle)
  | zathura_page_render (page : zathura_page_t) (cr : Option Handle) (printing : Bool)
  | gtk_page_setup_set_orientation (orientation : GtkPageOrientation)
  deriving DecidableEq

/-- What the two cairo constructors of one `draw-page` return: the pointer
`cairo_image_surface_create` returns and the pointer `cairo_create` returns, each
with the status of the object behind it. A constructor of cairo that fails returns
an object in an error state (`surface_failed`, `temp_cairo_failed`), not `NULL`;
the pointers are nullable because the code tests them against `NULL`. -/
structure CairoAlloc where
  surface : Option Handle
  temp_cairo : Option Handle
  surface_failed : Bool
  temp_cairo_failed : Bool
  deriving DecidableEq

/-- What reading the width and the height of an absent page yields. -/
structure AbsentPageRead where
  width : CDouble
  height : CDouble
  deriving DecidableEq

/-! ## Collaborators of `print.c` -/

/-- Modelled from the spec: `zathura_document_get_number_of_pages` of `document.c`
("page_count()"), the number of pages of the document. -/
def zathura_document_get_number_of_pages (document : zathura_document_t) : Nat :=
  document.pages.length

/-- Modelled from the spec: `zathura_document_get_current_page_number` of
`document.c` ("current_page_index()"). -/
def zathura_document_get_current_page_number (document : zathura_document_t) : Nat :=
  document.current_page_number

/-- Modelled from the spec: `zathura_document_get_path` of `document.c` ("path()");
the caller tests the result against `NULL`. -/
def zathura_document_get_path (document : zathura_document_t) : Option String :=
  document.file_path

/-- Modelled from the spec: `zathura_document_get_page` of `document.c`
("get_page(index) -> Page|absent"): the page at a valid index, absent otherwise. -/
def zathura_document_get_page (document : zathura_document_t) (index : Int) :
    Option zathura_page_t :=
  if 0 ≤ index then document.pages.get? index.toNat else none

/-- Modelled from the spec: `zathura_page_get_width` of `page.c` ("width()"); on an
absent page "the width/height read is undefined", here whatever `undef` says. -/
def zathura_page_get_width (undef : AbsentPageRead) : Option zathura_page_t → CDouble
  | some page => page.width
  | none => undef.width

/-- Modelled from the spec: `zathura_page_get_height` of `page.c` ("height()"); on an
absent page the read is undefined, here whatever `undef` says. -/
def zathura_page_get_height (undef : AbsentPageRead) : Option zathura_page_t → CDouble
  | some page => page.height
  | none => undef.height

/-- The girara call `girara_statusbar_item_set_text`: shows `text` in the item when
the session and the item are present, does nothing otherwise. -/
def girara_statusbar_item_set_text (session : Option Handle)
    (item : Option girara_statusbar_item_t) (text : String) :
    Option girara_statusbar_item_t :=
  match session, item with
  | some _, some _ => some { text := text }
  | _, _ => item

/-- The GObject call `g_object_ref`: returns its argument (`NULL` for `NULL`). -/
def g_object_ref (object : Option Handle) : Option Handle :=
  object

/-- The GTK call `gtk_print_operation_new`, with the defaults of a new operation. -/
def gtk_print_operation_new : GtkPrintOperation :=
  { print_settings := none, default_page_setup := none, allow_async := false,
    n_pages := -1, current_page := -1, use_full_page := false,
    embed_page_setup := false, handlers := [] }

/-- The text `g_strdup_printf("Printing %d...", page_number)` builds. -/
def printing_text (page_number : Int) : String :=
  "Printing " ++ toString page_number ++ "..."

/-- The text `girara_debug("printing page %d ...", page_number)` logs. -/
def debug_text (page_number : Int) : String :=
  "printing page " ++ toString page_number ++ " ..."

/-- The session with the status bar item `file` replaced. -/
def set_statusbar_file (z : zathura_t) (item : Option girara_statusbar_item_t) :
    zathura_t :=
  { z with ui := { z.ui with statusbar := { file := item } } }

/-! ## The callbacks -/

/-- The function `cb_print_end` of `print.c`. -/
def cb_print_end (zathura : Option zathura_t) : Option zathura_t × List Call :=
  match zathura with
  | none => (none, [])
  | some z =>
    match z.ui.session, z.document with
    | none, _ => (some z, [])
    | _, none => (some z, [])
    | some session, some document =>
      match zathura_document_get_path document with
      | some file_path =>
        (some (set_statusbar_file z
            (girara_statusbar_item_set_text (some session) z.ui.statusbar.file file_path)),
          [Call.girara_statusbar_item_set_text file_path])
      | none => (some z, [])

/-- The function `cb_print_draw_page` of `print.c`; `alloc` is what the two cairo
constructors return in this invocation. -/
def cb_print_draw_page (alloc : CairoAlloc) (context : Option GtkPrintContext)
    (page_number : Int) (zathura : Option zathura_t) : Option zathura_t × List Call :=
  match context, zathura with
  | none, _ => (zathura, [])
  | _, none => (zathura, [])
  | some context, some z =>
    match z.document, z.ui.session, z.ui.statusbar.file with
    | none, _, _ => (some z, [])
    | _, none, _ => (some z, [])
    | _, _, none => (some z, [])
    | some document, some session, some item =>
      -- update statusbar
      let tmp := printing_text page_number
      let z1 := set_statusbar_file z
        (girara_statusbar_item_set_text (some session) (some item) tmp)
      let t1 := [Call.girara_statusbar_item_set_text tmp]
      -- render page
      let cairo : Option Handle := context.cairo
      let page := zathura_document_get_page document page_number
      match cairo, page with
      | none, _ => (some z1, t1)
      | _, none => (some z1, t1)
      | some cr, some page =>
        let width := context.width
        let height := context.height
        let t2 := t1 ++ [Call.cairo_image_surface_create width.to_int height.to_int]
        match alloc.surface with
        | none => (some z1, t2)
        | some surface =>
          let temp_cairo := alloc.temp_cairo
          let t3 := t2 ++ [Call.cairo_create surface]
          -- the guard of the source tests `cairo`, not `temp_cairo`
          if cairo = none then
            (some z1, t3 ++ [Call.cairo_surface_destroy surface])
          else
            (some z1, t3 ++
              -- white background
              [ Call.cairo_save cr,
                Call.cairo_set_source_rgb cr 1 1 1,
                Call.cairo_rectangle cr 0 0 width height,
                Call.cairo_fill cr,
                Call.cairo_restore cr,
                -- render the page to the temporary surface
                Call.girara_debug (debug_text page_number),
                Call.render_lock z.sync.render_thread,
                Call.zathura_page_render page temp_cairo true,
                Call.render_unlock z.sync.render_thread,
                -- copy temporary surface
                Call.cairo_set_source_surface cr surface 0 0,
                Call.cairo_paint cr,
                Call.cairo_destroy temp_cairo,
                Call.cairo_surface_destroy surface ])

/-- The function `cb_print_request_page_setup` of `print.c`; `undef` is what the
reads of an absent page yield. Returns the session, the page setup and the calls. -/
def cb_print_request_page_setup (undef : AbsentPageRead) (page_number : Int)
    (setup : GtkPageSetup) (zathura : Option zathura_t) :
    Option zathura_t × GtkPageSetup × List Call :=
  match zathura with
  | none => (none, setup, [])
  | some z =>
    match z.document with
    | none => (some z, setup, [])
    | some document =>
      let page := zathura_document_get_page document page_number
      let width := zathura_page_get_width undef page
      let height := zathura_page_get_height undef page
      if width.gt height then
        (some z, { setup with orientation := GtkPageOrientation.LANDSCAPE },
          [Call.gtk_page_setup_set_orientation GtkPageOrientation.LANDSCAPE])
      else
        (some z, { setup with orientation := GtkPageOrientation.PORTRAIT },
          [Call.gtk_page_setup_set_orientation GtkPageOrientation.PORTRAIT])

/-! ## The host side of a print run -/

/-- One callback the host fires while the operation runs, with the arguments the
host chooses (and, for the collaborators the callback calls, what they return). -/
inductive HostCall where
  | draw_page (alloc : CairoAlloc) (context : Option GtkPrintContext) (page_number : Int)
  | end_print
  | request_page_setup (undef : AbsentPageRead) (page_number : Int) (setup : GtkPageSetup)
  deriving DecidableEq

/-- The signal a host callback is fired through. -/
def HostCall.signal : HostCall → Signal
  | .draw_page _ _ _ => Signal.draw_page
  | .end_print => Signal.end_print
  | .request_page_setup _ _ _ => Signal.request_page_setup

/-- What the host decides in one run of the print dialog: the callbacks it fires,
the result code, and the settings and default page setup the operation holds when
the run returns. -/
structure HostRun where
  calls : List HostCall
  result : GtkPrintOperationResult
  print_settings : Option Handle
  default_page_setup : Option Handle
  deriving DecidableEq

/-- The handler `print` connects to the signal of a host callback, applied to the
session passed as user data. -/
def invoke (call : HostCall) (zathura : Option zathura_t) : Option zathura_t × List Call :=
  match call with
  | .draw_page alloc context page_number =>
    cb_print_draw_page alloc context page_number zathura
  | .end_print => cb_print_end zathura
  | .request_page_setup undef page_number setup =>
    let r := cb_print_request_page_setup undef page_number setup zathura
    (r.1, r.2.2)

/-- The host fires its callbacks in order; a signal nobody connected is dropped. -/
def dispatch (handlers : List Signal) :
    List HostCall → Option zathura_t → Option zathura_t × List Call
  | [], zathura => (zathura, [])
  | call :: rest, zathura =>
    if call.signal ∈ handlers then
      let r := invoke call zathura
      let r2 := dispatch handlers rest r.1
      (r2.1, r.2 ++ r2.2)
    else
      dispatch handlers rest zathura

/-- What `gtk_print_operation_run` leaves behind. -/
structure RunState where
  zathura : Option zathura_t
  result : GtkPrintOperationResult
  op : GtkPrintOperation
  calls : List Call

/-- The GTK call `gtk_print_operation_run`: the host shows the dialog, fires the
connected callbacks, stores the resulting settings and page setup in the operation
and returns the result code. -/
def gtk_print_operation_run (host : HostRun) (op : GtkPrintOperation)
    (zathura : Option zathura_t) : RunState :=
  let r := dispatch op.handlers host.calls zathura
  { zathura := r.1,
    result := host.result,
    op := { op with print_settings := host.print_settings,
                    default_page_setup := host.default_page_setup },
    calls := Call.gtk_print_operation_run op :: r.2 }

/-! ## The entry point -/

/-- The function `print` of `print.c`; `host` is what the host does during
`gtk_print_operation_run`. -/
def print (host : HostRun) (zathura : Option zathura_t) : Option zathura_t × List Call :=
  match zathura with
  | none => (none, [])
  | some z =>
    match z.document with
    | none => (some z, [])
    | some document =>
      let op0 := gtk_print_operation_new
      let t0 := [Call.gtk_print_operation_new]
      -- print operation settings
      let (op1, t1) :=
        match z.print.settings with
        | some settings =>
          ({ op0 with print_settings := some settings },
            t0 ++ [Call.gtk_print_operation_set_print_settings settings])
        | none => (op0, t0)
      let (op2, t2) :=
        match z.print.page_setup with
        | some page_setup =>
          ({ op1 with default_page_setup := some page_setup },
            t1 ++ [Call.gtk_print_operation_set_default_page_setup page_setup])
        | none => (op1, t1)
      let n_pages : Int := gint_of_uint (zathura_document_get_number_of_pages document)
      let current_page : Int :=
        gint_of_uint (zathura_document_get_current_page_number document)
      let op3 : GtkPrintOperation :=
        { op2 with allow_async := true, n_pages := n_pages, current_page := current_page,
                   use_full_page := true, embed_page_setup := true }
      let t3 := t2 ++
        [ Call.gtk_print_operation_set_allow_async true,
          Call.gtk_print_operation_set_n_pages n_pages,
          Call.gtk_print_operation_set_current_page current_page,
          Call.gtk_print_operation_set_use_full_page true,
          Call.gtk_print_operation_set_embed_page_setup true ]
      -- print operation signals
      let op4 : GtkPrintOperation :=
        { op3 with handlers :=
            op3.handlers ++ [Signal.draw_page, Signal.end_print, Signal.request_page_setup] }
      let t4 := t3 ++
        [ Call.g_signal_connect Signal.draw_page,
          Call.g_signal_connect Signal.end_print,
          Call.g_signal_connect Signal.request_page_setup ]
      -- print
      let run := gtk_print_operation_run host op4 (some z)
      let t5 := t4 ++ run.calls
      match run.zathura with
      | none => (none, t5)
      | some z5 =>
        if run.result = GtkPrintOperationResult.APPLY then
          let t6 := t5 ++
            (match z5.print.settings with
              | some settings => [Call.g_object_unref (GObject.print_settings settings)]
              | none => [])
          let t7 := t6 ++
            (match z5.print.page_setup with
              | some page_setup => [Call.g_object_unref (GObject.page_setup page_setup)]
              | none => [])
          -- save previous settings
          let new_settings := run.op.print_settings
          let new_page_setup := run.op.default_page_setup
          let z8 : zathura_t :=
            { z5 with print := { settings := g_object_ref new_settings,
                                 page_setup := g_object_ref new_page_setup } }
          (some z8, t7 ++
            [ Call.g_object_ref (new_settings.map GObject.print_settings),
              Call.g_object_ref (new_page_setup.map GObject.page_setup),
              Call.g_object_unref GObject.print_operation ])
        else if run.result = GtkPrintOperationResult.ERROR then
          (some z5, t5 ++
            [ Call.girara_error "Error occured while printing progress",
              Call.g_object_unref GObject.print_operation ])
        else
          (some z5, t5 ++ [Call.g_object_unref GObject.print_operation])

/-! ## Reading a trace -/

/-- The calls of a trace made while the render lock is held; `held` says whether
the lock is held when the trace starts. The lock and unlock calls themselves
are not listed. -/
def calls_while_locked : Bool → List Call → List Call
  | _, [] => []
  | _, Call.render_lock _ :: rest => calls_while_locked true rest
  | _, Call.render_unlock _ :: rest => calls_while_locked false rest
  | true, call :: rest => call :: calls_while_locked true rest
  | false, _ :: rest => calls_while_locked false rest

/-- Whether the call acquires the render lock. -/
def Call.is_lock : Call → Bool
  | .render_lock _ => true
  | _ => false

/-- Whether the call releases the render lock. -/
def Call.is_unlock : Call → Bool
  | .render_unlock _ => true
  | _ => false

/-- Whether the call renders a page. -/
def Call.is_render : Call → Bool
  | .zathura_page_render _ _ _ => true
  | _ => false

/-- The status text the session shows, when it has a status bar item. -/
def status_text (zathura : Option zathura_t) : Option String :=
  match zathura with
  | none => none
  | some z => z.ui.statusbar.file.map fun item => item.text

/-- The document of the session, when both are present. -/
def document_of (zathura : Option zathura_t) : Option zathura_document_t :=
  match zathura with
  | none => none
  | some z => z.document

/-- The retained print settings and page setup of the session. -/
def retained (zathura : Option zathura_t) : Option zathura_print_t :=
  zathura.map fun z => z.print


/-- Whether the call takes or drops a GObject reference. -/
def Call.is_refcount : Call → Bool
  | .g_object_ref _ => true
  | .g_object_unref _ => true
  | _ => false

/-- Everything of the session but the text of its status bar item. -/
def frame_of (zathura : Option zathura_t) :
    Option (Option zathura_document_t × zathura_print_t × Option Handle × Bool ×
      zathura_sync_t) :=
  zathura.map fun z =>
    (z.document, z.print, z.ui.session, z.ui.statusbar.file.isSome, z.sync)

/-- Whether `cb_print_draw_page` gets past its first guard: the context, the
session object, its document, its user interface session and its status bar item
are all present. -/
def draw_page_ready (context : Option GtkPrintContext) (zathura : Option zathura_t) :
    Bool :=
  context.isSome &&
    match zathura with
    | none => false
    | some z => z.document.isSome && z.ui.session.isSome && z.ui.statusbar.file.isSome

/-- The page `cb_print_draw_page` looks up, when the session has a document. -/
def page_of (zathura : Option zathura_t) (page_number : Int) : Option zathura_page_t :=
  match document_of zathura with
  | none => none
  | some document => zathura_document_get_page document page_number

/-- The cairo drawing context of the print context, when both are present. -/
def cairo_of (context : Option GtkPrintContext) : Option Handle :=
  match context with
  | none => none
  | some c => c.cairo

/-- The calls of a `draw-page` invocation that passes every guard, in program
order: status text, the two cairo constructors, the background, the locked page
render, the copy of the temporary surface, the two releases. -/
def rendering_trace (page_number : Int) (cr surface : Handle) (temp_cairo : Option Handle)
    (page : zathura_page_t) (width height : CDouble) (render_thread : Handle) : List Call :=
  [ Call.girara_statusbar_item_set_text (printing_text page_number),
    Call.cairo_image_surface_create width.to_int height.to_int,
    Call.cairo_create surface,
    Call.cairo_save cr,
    Call.cairo_set_source_rgb cr 1 1 1,
    Call.cairo_rectangle cr 0 0 width height,
    Call.cairo_fill cr,
    Call.cairo_restore cr,
    Call.girara_debug (debug_text page_number),
    Call.render_lock render_thread,
    Call.zathura_page_render page temp_cairo true,
    Call.render_unlock render_thread,
    Call.cairo_set_source_surface cr surface 0 0,
    Call.cairo_paint cr,
    Call.cairo_destroy temp_cairo,
    Call.cairo_surface_destroy surface ]

/-- The calls `print` makes before it runs the operation, in program order. -/
def config_calls (z : zathura_t) (document : zathura_document_t) : List Call :=
  [Call.gtk_print_operation_new] ++
  (z.print.settings.map Call.gtk_print_operation_set_print_settings).toList ++
  (z.print.page_setup.map Call.gtk_print_operation_set_default_page_setup).toList ++
  [ Call.gtk_print_operation_set_allow_async true,
    Call.gtk_print_operation_set_n_pages
      (gint_of_uint (zathura_document_get_number_of_pages document)),
    Call.gtk_print_operation_set_current_page
      (gint_of_uint (zathura_document_get_current_page_number document)),
    Call.gtk_print_operation_set_use_full_page true,
    Call.gtk_print_operation_set_embed_page_setup true,
    Call.g_signal_connect Signal.draw_page,
    Call.g_signal_connect Signal.end_print,
    Call.g_signal_connect Signal.request_page_setup ]

/-- The print operation as `print` has configured it when it runs it. -/
def configured_operation (z : zathura_t) (document : zathura_document_t) :
    GtkPrintOperation :=
  { print_settings := z.print.settings,
    default_page_setup := z.print.page_setup,
    allow_async := true,
    n_pages := gint_of_uint (zathura_document_get_number_of_pages document),
    current_page := gint_of_uint (zathura_document_get_current_page_number document),
    use_full_page := true,
    embed_page_setup := true,
    handlers := [Signal.draw_page, Signal.end_print, Signal.request_page_setup] }

/-- The calls of `print` after the operation has run, for each result code;
`old` is what the session retained before. -/
def closing_calls (host : HostRun) (old : zathura_print_t) : List Call :=
  if host.result = GtkPrintOperationResult.APPLY then
    (old.settings.map fun s => Call.g_object_unref (GObject.print_settings s)).toList ++
    (old.page_setup.map fun p => Call.g_object_unref (GObject.page_setup p)).toList ++
    [ Call.g_object_ref (host.print_settings.map GObject.print_settings),
      Call.g_object_ref (host.default_page_setup.map GObject.page_setup),
      Call.g_object_unref GObject.print_operation ]
  else if host.result = GtkPrintOperationResult.ERROR then
    [ Call.girara_error "Error occured while printing progress",
      Call.g_object_unref GObject.print_operation ]
  else
    [Call.g_object_unref GObject.print_operation]

/-- The calls of one `draw-page` invocation. -/
def draw_page_calls (alloc : CairoAlloc) (context : Option GtkPrintContext)
    (page_number : Int) (zathura : Option zathura_t) : List Call :=
  (cb_print_draw_page alloc context page_number zathura).2

/-- The session after a sequence of `draw-page` invocations, each with its own
cairo results, print context and page number. -/
def draw_pages :
    List (CairoAlloc × Option GtkPrintContext × Int) → Option zathura_t → Option zathura_t
  | [], zathura => zathura
  | (alloc, context, page_number) :: rest, zathura =>
    draw_pages rest (cb_print_draw_page alloc context page_number zathura).1

/-! ## Sample inputs -/

/-- A portrait page, 600 wide and 800 high. -/
def sample_page : zathura_page_t :=
  { width := CDouble.finite 600, height := CDouble.finite 800 }

/-- A landscape page, 800 wide and 600 high. -/
def sample_wide_page : zathura_page_t :=
  { width := CDouble.finite 800, height := CDouble.finite 600 }

/-- A document of three portrait pages whose current page is page 1. -/
def sample_document : zathura_document_t :=
  { file_path := some "/tmp/doc.pdf", current_page_number := 1,
    pages := [sample_page, sample_page, sample_page] }

/-- A session showing `sample_document`, retaining settings 11 and page setup 12. -/
def sample_session : zathura_t :=
  { document := some sample_document,
    print := { settings := some 11, page_setup := some 12 },
    ui := { session := some 5, statusbar := { file := some { text := "/tmp/doc.pdf" } } },
    sync := { render_thread := 9 } }

/-- A print context with a cairo drawing context, 595 wide and 842 high. -/
def sample_context : GtkPrintContext :=
  { cairo := some 1, width := CDouble.finite 595, height := CDouble.finite 842 }

/-- Both cairo constructors succeed: surface 2, drawing context 3. -/
def sample_alloc : CairoAlloc :=
  { surface := some 2, temp_cairo := some 3, surface_failed := false,
    temp_cairo_failed := false }

/-- A page setup in reverse landscape. -/
def sample_setup : GtkPageSetup :=
  { orientation := GtkPageOrientation.REVERSE_LANDSCAPE, paper_size := 4, margins := [1, 2, 3, 4] }

/-- Reads of an absent page that yield -1 for both sides. -/
def sample_undef : AbsentPageRead :=
  { width := CDouble.finite (-1), height := CDouble.finite (-1) }

/-- The callbacks of a job that prints pages 0, 1 and 2 and ends. -/
def sample_calls : List HostCall :=
  [ HostCall.request_page_setup sample_undef 0 sample_setup,
    HostCall.draw_page sample_alloc (some sample_context) 0,
    HostCall.request_page_setup sample_undef 1 sample_setup,
    HostCall.draw_page sample_alloc (some sample_context) 1,
    HostCall.request_page_setup sample_undef 2 sample_setup,
    HostCall.draw_page sample_alloc (some sample_context) 2,
    HostCall.end_print ]

/-- A run the user accepts; the operation ends with settings 21 and page setup 22. -/
def sample_run_apply : HostRun :=
  { calls := sample_calls, result := GtkPrintOperationResult.APPLY,
    print_settings := some 21, default_page_setup := some 22 }

/-- A run that fails after its pages were drawn; the operation holds settings 21
and page setup 22 when it returns. -/
def sample_run_error : HostRun :=
  { calls := sample_calls, result := GtkPrintOperationResult.ERROR,
    print_settings := some 21, default_page_setup := some 22 }

/-- The sample session with a document whose file path is absent. -/
def sample_pathless_session : zathura_t :=
  { sample_session with
    document := some { sample_document with file_path := none },
    ui := { session := some 5, statusbar := { file := some { text := "[No name]" } } } }

/-- The sample session without a user interface session. -/
def sample_headless_session : zathura_t :=
  { sample_session with
    ui := { session := none, statusbar := { file := some { text := "ready" } } } }

/-- The first cairo constructor fails: surface 2 is in an error state, and so is the
drawing context 3 created on it. -/
def sample_alloc_surface_failed : CairoAlloc :=
  { surface := some 2, temp_cairo := some 3, surface_failed := true,
    temp_cairo_failed := true }

/-- The second cairo constructor fails: surface 2 is sound, the drawing context 3
is in an error state. -/
def sample_alloc_temp_cairo_failed : CairoAlloc :=
  { surface := some 2, temp_cairo := some 3, surface_failed := false,
    temp_cairo_failed := true }

/-- A document of one landscape page. -/
def sample_wide_document : zathura_document_t :=
  { file_path := some "/tmp/wide.pdf", current_page_number := 0,
    pages := [sample_wide_page] }

/-- A session showing `sample_wide_document`. -/
def sample_wide_session : zathura_t :=
  { sample_session with document := some sample_wide_document }

/-- A print context without a cairo drawing context. -/
def sample_context_no_cairo : GtkPrintContext :=
  { cairo := none, width := CDouble.finite 595, height := CDouble.finite 842 }

/-! ## Frame lemmas for the callbacks -/

theorem draw_page_state (alloc : CairoAlloc) (context : Option GtkPrintContext)
    (page_number : Int) (zathura : Option zathura_t) :
    (cb_print_draw_page alloc context page_number zathura).1 =
      if draw_page_ready context zathura then
        zathura.map fun z =>
          set_statusbar_file z (some { text := printing_text page_number })
      else zathura := by
  rcases context with _ | context <;> rcases zathura with _ | z <;>
    try simp [cb_print_draw_page, draw_page_ready]
  rcases hd : z.document with _ | document <;>
  rcases hs : z.ui.session with _ | session <;>
  rcases hi : z.ui.statusbar.file with _ | item <;>
    try simp [hd, hs, hi]
  rcases hc : context.cairo with _ | cr <;>
  rcases hp : zathura_document_get_page document page_number with _ | page <;>
  rcases ha : alloc.surface with _ | surface <;>
    simp [hc, hp, ha, girara_statusbar_item_set_text]

theorem draw_page_frame (alloc : CairoAlloc) (context : Option GtkPrintContext)
    (page_number : Int) (zathura : Option zathura_t) :
    frame_of (cb_print_draw_page alloc context page_number zathura).1 = frame_of zathura := by
  rw [draw_page_state]
  split
  · rcases zathura with _ | z
    · rfl
    · rename_i h
      simp [draw_page_ready] at h
      simp [frame_of, set_statusbar_file, h]
  · rfl


theorem draw_page_trace_cases (alloc : CairoAlloc) (context : Option GtkPrintContext)
    (page_number : Int) (zathura : Option zathura_t) :
    (draw_page_ready context zathura = false ∧
      (cb_print_draw_page alloc context page_number zathura).2 = []) ∨
    (draw_page_ready context zathura = true ∧
      (cairo_of context = none ∨ page_of zathura page_number = none) ∧
      (cb_print_draw_page alloc context page_number zathura).2 =
        [Call.girara_statusbar_item_set_text (printing_text page_number)]) ∨
    (draw_page_ready context zathura = true ∧
      (∃ cr, cairo_of context = some cr) ∧
      (∃ page, page_of zathura page_number = some page) ∧ alloc.surface = none ∧
      ∃ c, context = some c ∧
        (cb_print_draw_page alloc context page_number zathura).2 =
          [Call.girara_statusbar_item_set_text (printing_text page_number),
           Call.cairo_image_surface_create c.width.to_int c.height.to_int]) ∨
    (draw_page_ready context zathura = true ∧
      ∃ c z cr page surface, context = some c ∧ zathura = some z ∧
        c.cairo = some cr ∧ page_of zathura page_number = some page ∧
        alloc.surface = some surface ∧
        (cb_print_draw_page alloc context page_number zathura).2 =
          rendering_trace page_number cr surface alloc.temp_cairo page c.width c.height
            z.sync.render_thread) := by
  rcases context with _ | context <;> rcases zathura with _ | z <;>
    try simp [cb_print_draw_page, draw_page_ready]
  rcases hd : z.document with _ | document <;>
  rcases hs : z.ui.session with _ | session <;>
  rcases hi : z.ui.statusbar.file with _ | item <;>
    try simp [hd, hs, hi]
  rcases hc : context.cairo with _ | cr <;>
  rcases hp : zathura_document_get_page document page_number with _ | page <;>
  rcases ha : alloc.surface with _ | surface <;>
    simp [hc, hp, ha, cairo_of, page_of, document_of, hd, rendering_trace]


theorem draw_page_no_refcount (alloc : CairoAlloc) (context : Option GtkPrintContext)
    (page_number : Int) (zathura : Option zathura_t) :
    ∀ c ∈ (cb_print_draw_page alloc context page_number zathura).2,
      c.is_refcount = false := by
  rcases draw_page_trace_cases alloc context page_number zathura with
    ⟨_, h⟩ | ⟨_, _, h⟩ | ⟨_, _, _, _, _, _, h⟩ | ⟨_, _, _, _, _, _, _, _, _, _, _, h⟩ <;>
    rw [h] <;> simp [rendering_trace, Call.is_refcount]

theorem end_frame (zathura : Option zathura_t) :
    frame_of (cb_print_end zathura).1 = frame_of zathura := by
  rcases zathura with _ | z
  · rfl
  · rcases hs : z.ui.session with _ | session <;>
    rcases hd : z.document with _ | document <;>
      try simp [cb_print_end, hs, hd]
    rcases hp : zathura_document_get_path document with _ | path
    · simp [hs, hd]
    · rcases hi : z.ui.statusbar.file with _ | item <;>
        simp [frame_of, set_statusbar_file, girara_statusbar_item_set_text, hs, hd, hi]

theorem end_no_refcount (zathura : Option zathura_t) :
    ∀ c ∈ (cb_print_end zathura).2, c.is_refcount = false := by
  rcases zathura with _ | z
  · simp [cb_print_end]
  · rcases hs : z.ui.session with _ | session <;>
    rcases hd : z.document with _ | document <;>
      try simp [cb_print_end, hs, hd]
    rcases hp : zathura_document_get_path document with _ | path <;>
      simp [Call.is_refcount]

theorem request_page_setup_state (undef : AbsentPageRead) (page_number : Int)
    (setup : GtkPageSetup) (zathura : Option zathura_t) :
    (cb_print_request_page_setup undef page_number setup zathura).1 = zathura := by
  rcases zathura with _ | z
  · rfl
  · rcases hd : z.document with _ | document
    · simp [cb_print_request_page_setup, hd]
    · simp only [cb_print_request_page_setup, hd]
      split <;> rfl

theorem request_page_setup_no_refcount (undef : AbsentPageRead) (page_number : Int)
    (setup : GtkPageSetup) (zathura : Option zathura_t) :
    ∀ c ∈ (cb_print_request_page_setup undef page_number setup zathura).2.2,
      c.is_refcount = false := by
  rcases zathura with _ | z
  · simp [cb_print_request_page_setup]
  · rcases hd : z.document with _ | document
    · simp [cb_print_request_page_setup, hd]
    · simp only [cb_print_request_page_setup, hd]
      split <;> simp [Call.is_refcount]

theorem invoke_frame (call : HostCall) (zathura : Option zathura_t) :
    frame_of (invoke call zathura).1 = frame_of zathura := by
  cases call with
  | draw_page alloc context page_number => exact draw_page_frame _ _ _ _
  | end_print => exact end_frame _
  | request_page_setup undef page_number setup =>
    simp only [invoke]
    rw [request_page_setup_state]

theorem invoke_no_refcount (call : HostCall) (zathura : Option zathura_t) :
    ∀ c ∈ (invoke call zathura).2, c.is_refcount = false := by
  cases call with
  | draw_page alloc context page_number => exact draw_page_no_refcount _ _ _ _
  | end_print => exact end_no_refcount _
  | request_page_setup undef page_number setup =>
    exact request_page_setup_no_refcount _ _ _ _

theorem dispatch_frame (handlers : List Signal) (calls : List HostCall) :
    ∀ zathura : Option zathura_t,
      frame_of (dispatch handlers calls zathura).1 = frame_of zathura := by
  induction calls with
  | nil => intro zathura; rfl
  | cons call rest ih =>
    intro zathura
    simp only [dispatch]
    split
    · rw [ih, invoke_frame]
    · exact ih zathura

theorem dispatch_no_refcount (handlers : List Signal) (calls : List HostCall) :
    ∀ zathura : Option zathura_t,
      ∀ c ∈ (dispatch handlers calls zathura).2, c.is_refcount = false := by
  induction calls with
  | nil => intro zathura c hc; simp [dispatch] at hc
  | cons call rest ih =>
    intro zathura c hc
    simp only [dispatch] at hc
    split at hc
    · rcases List.mem_append.mp hc with h | h
      · exact invoke_no_refcount _ _ c h
      · exact ih _ c h
    · exact ih _ c hc

theorem count_eq_zero_of_no_refcount (t : List Call) (c : Call)
    (ht : ∀ x ∈ t, x.is_refcount = false) (hc : c.is_refcount = true) :
    t.count c = 0 := by
  apply List.count_eq_zero_of_not_mem
  intro hmem
  have := ht c hmem
  rw [hc] at this
  exact Bool.noConfusion this


/-! ## The shape of a print run -/

theorem print_shape (host : HostRun) (z : zathura_t) (document : zathura_document_t)
    (hdoc : z.document = some document) :
    ∃ z5 cbs,
      dispatch [Signal.draw_page, Signal.end_print, Signal.request_page_setup]
        host.calls (some z) = (some z5, cbs) ∧
      z5.print = z.print ∧
      print host (some z) =
        (some (if host.result = GtkPrintOperationResult.APPLY then
            { z5 with print := { settings := host.print_settings,
                                 page_setup := host.default_page_setup } }
          else z5),
         config_calls z document ++
           Call.gtk_print_operation_run (configured_operation z document) ::
             (cbs ++ closing_calls host z.print)) := by
  have hf := dispatch_frame [Signal.draw_page, Signal.end_print, Signal.request_page_setup]
    host.calls (some z)
  rcases hd : dispatch [Signal.draw_page, Signal.end_print, Signal.request_page_setup]
    host.calls (some z) with ⟨zo, cbs⟩
  rw [hd] at hf
  rcases zo with _ | z5
  · simp [frame_of] at hf
  · have hprint : z5.print = z.print := by
      simp [frame_of] at hf
      exact hf.2.1
    refine ⟨z5, cbs, rfl, hprint, ?_⟩
    rcases hs : z.print.settings with _ | settings <;>
    rcases hp : z.print.page_setup with _ | page_setup <;>
    by_cases ha : host.result = GtkPrintOperationResult.APPLY <;>
    by_cases he : host.result = GtkPrintOperationResult.ERROR <;>
      simp [print, hdoc, hs, hp, gtk_print_operation_run, gtk_print_operation_new, hd,
        hprint, ha, he, config_calls, configured_operation, closing_calls, g_object_ref]


theorem config_calls_no_refcount (z : zathura_t) (document : zathura_document_t) :
    ∀ c ∈ config_calls z document, c.is_refcount = false := by
  rcases hs : z.print.settings with _ | settings <;>
  rcases hp : z.print.page_setup with _ | page_setup <;>
    simp [config_calls, hs, hp, Call.is_refcount]

theorem before_closing_no_refcount (host : HostRun) (z z5 : zathura_t)
    (document : zathura_document_t) (cbs : List Call)
    (hd : dispatch [Signal.draw_page, Signal.end_print, Signal.request_page_setup]
      host.calls (some z) = (some z5, cbs)) :
    ∀ c ∈ config_calls z document ++
        Call.gtk_print_operation_run (configured_operation z document) :: cbs,
      c.is_refcount = false := by
  intro c hc
  rcases List.mem_append.mp hc with h | h
  · exact config_calls_no_refcount z document c h
  · rcases List.mem_cons.mp h with h | h
    · rw [h]; rfl
    · have := dispatch_no_refcount
        [Signal.draw_page, Signal.end_print, Signal.request_page_setup] host.calls (some z)
      rw [hd] at this
      exact this c h

theorem print_trace_count (host : HostRun) (z : zathura_t) (document : zathura_document_t)
    (hdoc : z.document = some document) (c : Call) (hc : c.is_refcount = true) :
    (print host (some z)).2.count c = (closing_calls host z.print).count c := by
  obtain ⟨z5, cbs, hd, _, hprint⟩ := print_shape host z document hdoc
  rw [hprint]
  have h0 := count_eq_zero_of_no_refcount _ c
    (before_closing_no_refcount host z z5 document cbs hd) hc
  have hsplit : config_calls z document ++
      Call.gtk_print_operation_run (configured_operation z document) ::
        (cbs ++ closing_calls host z.print) =
      (config_calls z document ++
        Call.gtk_print_operation_run (configured_operation z document) :: cbs) ++
        closing_calls host z.print := by simp
  show List.count c (config_calls z document ++
      Call.gtk_print_operation_run (configured_operation z document) ::
        (cbs ++ closing_calls host z.print)) = _
  rw [hsplit, List.count_append, h0, Nat.zero_add]

theorem closing_count_unref_settings (host : HostRun) (old : zathura_print_t)
    (happly : host.result = GtkPrintOperationResult.APPLY) (s : Handle) :
    (closing_calls host old).count (Call.g_object_unref (GObject.print_settings s)) =
      if old.settings = some s then 1 else 0 := by
  rcases hs : old.settings with _ | s0 <;>
  rcases hp : old.page_setup with _ | p0 <;>
    simp [closing_calls, happly, hs, hp, List.count_cons]

theorem closing_count_unref_page_setup (host : HostRun) (old : zathura_print_t)
    (happly : host.result = GtkPrintOperationResult.APPLY) (p : Handle) :
    (closing_calls host old).count (Call.g_object_unref (GObject.page_setup p)) =
      if old.page_setup = some p then 1 else 0 := by
  rcases hs : old.settings with _ | s0 <;>
  rcases hp : old.page_setup with _ | p0 <;>
    simp [closing_calls, happly, hs, hp, List.count_cons]

theorem closing_count_ref_settings (host : HostRun) (old : zathura_print_t)
    (happly : host.result = GtkPrintOperationResult.APPLY) (s : Handle) :
    (closing_calls host old).count (Call.g_object_ref (some (GObject.print_settings s))) =
      if host.print_settings = some s then 1 else 0 := by
  rcases hs : old.settings with _ | s0 <;>
  rcases hp : old.page_setup with _ | p0 <;>
  rcases hs1 : host.print_settings with _ | s1 <;>
  rcases hp1 : host.default_page_setup with _ | p1 <;>
    simp [closing_calls, happly, hs, hp, hs1, hp1, List.count_cons]

theorem closing_count_ref_page_setup (host : HostRun) (old : zathura_print_t)
    (happly : host.result = GtkPrintOperationResult.APPLY) (p : Handle) :
    (closing_calls host old).count (Call.g_object_ref (some (GObject.page_setup p))) =
      if host.default_page_setup = some p then 1 else 0 := by
  rcases hs : old.settings with _ | s0 <;>
  rcases hp : old.page_setup with _ | p0 <;>
  rcases hs1 : host.print_settings with _ | s1 <;>
  rcases hp1 : host.default_page_setup with _ | p1 <;>
    simp [closing_calls, happly, hs, hp, hs1, hp1, List.count_cons]

theorem closing_calls_not_applied (host : HostRun) (old : zathura_print_t)
    (h : host.result ≠ GtkPrintOperationResult.APPLY) :
    ∀ c ∈ closing_calls host old, c.is_refcount = true →
      c = Call.g_object_unref GObject.print_operation := by
  intro c hc hr
  by_cases he : host.result = GtkPrintOperationResult.ERROR
  · simp [closing_calls, h, he] at hc
    rcases hc with hc | hc
    · rw [hc] at hr; simp [Call.is_refcount] at hr
    · exact hc
  · simp [closing_calls, h, he] at hc
    exact hc

theorem CDouble.gt_self (a : CDouble) : a.gt a = false := by
  cases a <;> simp [CDouble.gt]

theorem draw_pages_frame (draws : List (CairoAlloc × Option GtkPrintContext × Int)) :
    ∀ zathura : Option zathura_t, frame_of (draw_pages draws zathura) = frame_of zathura := by
  induction draws with
  | nil => intro zathura; rfl
  | cons d rest ih =>
    intro zathura
    obtain ⟨alloc, context, page_number⟩ := d
    simp only [draw_pages]
    rw [ih, draw_page_frame]

theorem end_sets_path (zathura : Option zathura_t) (document : zathura_document_t)
    (path : String) (session : Handle)
    (hf : ∃ sync print, frame_of zathura = some (some document, print, some session, true, sync))
    (hpath : zathura_document_get_path document = some path) :
    status_text (cb_print_end zathura).1 = some path := by
  obtain ⟨sync, print, hf⟩ := hf
  rcases zathura with _ | z
  · simp [frame_of] at hf
  · simp [frame_of] at hf
    obtain ⟨hd, _, hs, hi, _⟩ := hf
    obtain ⟨item, hitem⟩ := Option.isSome_iff_exists.mp hi
    simp [cb_print_end, hd, hs, hpath, hitem, status_text, set_statusbar_file,
      girara_statusbar_item_set_text]

/-- C1: when a print run ends with the result `APPLY`, `print` releases
(`g_object_unref`) each print-settings object and each page-setup object the session
retained before exactly once and releases no other one, the session retains on
return the settings and default page setup the operation ends with, and each of
these is referenced (`g_object_ref`) exactly once and no other one is. -/
theorem print_applied_replaces_retained (host : HostRun) (z : zathura_t)
    (document : zathura_document_t) (hdoc : z.document = some document)
    (happly : host.result = GtkPrintOperationResult.APPLY) :
    retained (print host (some z)).1 =
        some { settings := host.print_settings, page_setup := host.default_page_setup } ∧
    (∀ s, (print host (some z)).2.count (Call.g_object_unref (GObject.print_settings s)) =
        if z.print.settings = some s then 1 else 0) ∧
    (∀ p, (print host (some z)).2.count (Call.g_object_unref (GObject.page_setup p)) =
        if z.print.page_setup = some p then 1 else 0) ∧
    (∀ s, (print host (some z)).2.count
          (Call.g_object_ref (some (GObject.print_settings s))) =
        if host.print_settings = some s then 1 else 0) ∧
    (∀ p, (print host (some z)).2.count
          (Call.g_object_ref (some (GObject.page_setup p))) =
        if host.default_page_setup = some p then 1 else 0) := by
  refine ⟨?_, ?_, ?_, ?_, ?_⟩
  · obtain ⟨z5, cbs, _, _, hprint⟩ := print_shape host z document hdoc
    rw [hprint]
    simp [retained, happly]
  · intro s
    rw [print_trace_count host z document hdoc (Call.g_object_unref _) rfl]
    exact closing_count_unref_settings host z.print happly s
  · intro p
    rw [print_trace_count host z document hdoc (Call.g_object_unref _) rfl]
    exact closing_count_unref_page_setup host z.print happly p
  · intro s
    rw [print_trace_count host z document hdoc (Call.g_object_ref _) rfl]
    exact closing_count_ref_settings host z.print happly s
  · intro p
    rw [print_trace_count host z document hdoc (Call.g_object_ref _) rfl]
    exact closing_count_ref_page_setup host z.print happly p

/-- Witness of C1 on the sample session and the accepted sample run: settings 11
and page setup 12 are released once each, settings 21 and page setup 22 are
referenced once each and retained. -/
theorem print_applied_replaces_retained_witness :
    sample_session.document = some sample_document ∧
    sample_run_apply.result = GtkPrintOperationResult.APPLY ∧
    retained (print sample_run_apply (some sample_session)).1 =
      some { settings := some 21, page_setup := some 22 } ∧
    (print sample_run_apply (some sample_session)).2.count
      (Call.g_object_unref (GObject.print_settings 11)) = 1 ∧
    (print sample_run_apply (some sample_session)).2.count
      (Call.g_object_ref (some (GObject.page_setup 22))) = 1 :=
  ⟨rfl, rfl,
    (print_applied_replaces_retained sample_run_apply sample_session sample_document
      rfl rfl).1,
    (print_applied_replaces_retained sample_run_apply sample_session sample_document
      rfl rfl).2.1 11,
    (print_applied_replaces_retained sample_run_apply sample_session sample_document
      rfl rfl).2.2.2.2 22⟩

/-- C2: when a print run ends with any result other than `APPLY` (and also when
`print` returns at once because the session or its document is absent), the
retained print settings and page setup are the same after `print` as before, no
object is referenced (`g_object_ref`), and no print-settings or page-setup object
is released: the only release is that of the print operation itself. -/
theorem print_not_applied_keeps_retained (host : HostRun) (zathura : Option zathura_t)
    (h : host.result ≠ GtkPrintOperationResult.APPLY) :
    retained (print host zathura).1 = retained zathura ∧
    (∀ o, Call.g_object_ref o ∉ (print host zathura).2) ∧
    (∀ s, Call.g_object_unref (GObject.print_settings s) ∉ (print host zathura).2) ∧
    (∀ p, Call.g_object_unref (GObject.page_setup p) ∉ (print host zathura).2) := by
  rcases zathura with _ | z
  · simp [print, retained]
  · rcases hdoc : z.document with _ | document
    · simp [print, hdoc, retained]
    · obtain ⟨z5, cbs, hd, hz5, hprint⟩ := print_shape host z document hdoc
      have key : ∀ c ∈ (print host (some z)).2, c.is_refcount = true →
          c = Call.g_object_unref GObject.print_operation := by
        intro c hc hr
        rw [hprint] at hc
        have hsplit : config_calls z document ++
            Call.gtk_print_operation_run (configured_operation z document) ::
              (cbs ++ closing_calls host z.print) =
            (config_calls z document ++
              Call.gtk_print_operation_run (configured_operation z document) :: cbs) ++
              closing_calls host z.print := by simp
        simp only [hsplit] at hc
        rcases List.mem_append.mp hc with hc | hc
        · have := before_closing_no_refcount host z z5 document cbs hd c hc
          rw [hr] at this
          exact Bool.noConfusion this
        · exact closing_calls_not_applied host z.print h c hc hr
      refine ⟨?_, ?_, ?_, ?_⟩
      · rw [hprint]
        simp [retained, h, hz5]
      · intro o hmem
        have := key _ hmem rfl
        exact Call.noConfusion this
      · intro s hmem
        have := key _ hmem rfl
        simp at this
      · intro p hmem
        have := key _ hmem rfl
        simp at this

/-- Witness of C2 on the sample session and the failed sample run: settings 11 and
page setup 12 stay retained and are not released. -/
theorem print_not_applied_keeps_retained_witness :
    sample_run_error.result ≠ GtkPrintOperationResult.APPLY ∧
    retained (print sample_run_error (some sample_session)).1 =
      some { settings := some 11, page_setup := some 12 } ∧
    Call.g_object_unref (GObject.print_settings 11) ∉
      (print sample_run_error (some sample_session)).2 :=
  ⟨by decide,
    (print_not_applied_keeps_retained sample_run_error (some sample_session)
      (by decide)).1,
    (print_not_applied_keeps_retained sample_run_error (some sample_session)
      (by decide)).2.2.1 11⟩

/-- C3: when the session has a document and the page at `page_number` exists, the
request-page-setup handler sets the orientation of the page setup to landscape if
the page's width is greater than its height and to portrait otherwise, in
particular when width and height are equal. For finite width a and height b that
is landscape when b < a and portrait when a ≤ b; a side that is not a number gives
portrait; an infinite side compares as in the extended reals. The handler calls
the orientation setter exactly once and makes no other call, and it leaves the
paper size and the margins of the page setup and the session as they were. -/
theorem request_page_setup_sets_orientation (undef : AbsentPageRead) (page_number : Int)
    (setup : GtkPageSetup) (z : zathura_t) (document : zathura_document_t)
    (page : zathura_page_t) (hdoc : z.document = some document)
    (hpage : zathura_document_get_page document page_number = some page) :
    (cb_print_request_page_setup undef page_number setup (some z)).2.1.orientation =
        (if page.width.gt page.height = true then GtkPageOrientation.LANDSCAPE
          else GtkPageOrientation.PORTRAIT) ∧
    (page.width = page.height →
      (cb_print_request_page_setup undef page_number setup (some z)).2.1.orientation =
        GtkPageOrientation.PORTRAIT) ∧
    (cb_print_request_page_setup undef page_number setup (some z)).2.2 =
        [Call.gtk_page_setup_set_orientation
          (if page.width.gt page.height = true then GtkPageOrientation.LANDSCAPE
            else GtkPageOrientation.PORTRAIT)] ∧
    (cb_print_request_page_setup undef page_number setup (some z)).2.1.paper_size =
        setup.paper_size ∧
    (cb_print_request_page_setup undef page_number setup (some z)).2.1.margins =
        setup.margins ∧
    (cb_print_request_page_setup undef page_number setup (some z)).1 = some z ∧
    (∀ a b : ℚ, page.width = CDouble.finite a → page.height = CDouble.finite b →
      (b < a →
        (cb_print_request_page_setup undef page_number setup (some z)).2.1.orientation =
          GtkPageOrientation.LANDSCAPE ∧
        (cb_print_request_page_setup undef page_number setup (some z)).2.2 =
          [Call.gtk_page_setup_set_orientation GtkPageOrientation.LANDSCAPE]) ∧
      (a ≤ b →
        (cb_print_request_page_setup undef page_number setup (some z)).2.1.orientation =
          GtkPageOrientation.PORTRAIT ∧
        (cb_print_request_page_setup undef page_number setup (some z)).2.2 =
          [Call.gtk_page_setup_set_orientation GtkPageOrientation.PORTRAIT])) ∧
    (page.width = CDouble.nan ∨ page.height = CDouble.nan →
      (cb_print_request_page_setup undef page_number setup (some z)).2.1.orientation =
        GtkPageOrientation.PORTRAIT) ∧
    (page.width = CDouble.posInf →
      ((∃ b, page.height = CDouble.finite b) ∨ page.height = CDouble.negInf) →
      (cb_print_request_page_setup undef page_number setup (some z)).2.1.orientation =
        GtkPageOrientation.LANDSCAPE) ∧
    (page.height = CDouble.negInf →
      ((∃ a, page.width = CDouble.finite a) ∨ page.width = CDouble.posInf) →
      (cb_print_request_page_setup undef page_number setup (some z)).2.1.orientation =
        GtkPageOrientation.LANDSCAPE) ∧
    (page.height = CDouble.posInf ∨ page.width = CDouble.negInf →
      (cb_print_request_page_setup undef page_number setup (some z)).2.1.orientation =
        GtkPageOrientation.PORTRAIT) := by
  have hland : page.width.gt page.height = true →
      (cb_print_request_page_setup undef page_number setup (some z)).2.1.orientation =
          GtkPageOrientation.LANDSCAPE ∧
        (cb_print_request_page_setup undef page_number setup (some z)).2.2 =
          [Call.gtk_page_setup_set_orientation GtkPageOrientation.LANDSCAPE] := by
    intro hgt
    simp [cb_print_request_page_setup, hdoc, hpage, zathura_page_get_width,
      zathura_page_get_height, hgt]
  have hport : page.width.gt page.height = false →
      (cb_print_request_page_setup undef page_number setup (some z)).2.1.orientation =
          GtkPageOrientation.PORTRAIT ∧
        (cb_print_request_page_setup undef page_number setup (some z)).2.2 =
          [Call.gtk_page_setup_set_orientation GtkPageOrientation.PORTRAIT] := by
    intro hgt
    simp [cb_print_request_page_setup, hdoc, hpage, zathura_page_get_width,
      zathura_page_get_height, hgt]
  refine ⟨?_, ?_, ?_, ?_, ?_, ?_, ?_, ?_, ?_, ?_, ?_⟩
  · by_cases hgt : page.width.gt page.height = true
    · rw [(hland hgt).1, if_pos hgt]
    · rw [(hport (by simpa using hgt)).1, if_neg hgt]
  · intro heq
    exact (hport (by rw [heq, CDouble.gt_self])).1
  · by_cases hgt : page.width.gt page.height = true
    · rw [(hland hgt).2, if_pos hgt]
    · rw [(hport (by simpa using hgt)).2, if_neg hgt]
  · by_cases hgt : page.width.gt page.height = true <;>
      simp [cb_print_request_page_setup, hdoc, hpage, zathura_page_get_width,
        zathura_page_get_height, hgt]
  · by_cases hgt : page.width.gt page.height = true <;>
      simp [cb_print_request_page_setup, hdoc, hpage, zathura_page_get_width,
        zathura_page_get_height, hgt]
  · by_cases hgt : page.width.gt page.height = true <;>
      simp [cb_print_request_page_setup, hdoc, hpage, zathura_page_get_width,
        zathura_page_get_height, hgt]
  · intro a b hw hh
    refine ⟨fun hlt => hland ?_, fun hle => hport ?_⟩
    · rw [hw, hh]; simp [CDouble.gt, hlt]
    · rw [hw, hh]; simp [CDouble.gt, hle]
  · intro h
    refine (hport ?_).1
    rcases h with h | h
    · rw [h]; simp [CDouble.gt]
    · rw [h]; cases page.width <;> simp [CDouble.gt]
  · intro hw hh
    refine (hland ?_).1
    rcases hh with ⟨b, hb⟩ | hb
    · rw [hw, hb]; simp [CDouble.gt]
    · rw [hw, hb]; simp [CDouble.gt]
  · intro hh hw
    refine (hland ?_).1
    rcases hw with ⟨a, ha⟩ | ha
    · rw [hh, ha]; simp [CDouble.gt]
    · rw [hh, ha]; simp [CDouble.gt]
  · intro h
    refine (hport ?_).1
    rcases h with h | h
    · rw [h]; cases page.width <;> simp [CDouble.gt]
    · rw [h]; cases page.height <;> simp [CDouble.gt]

/-- Witness of C3: page 0 of the sample document is portrait (600 by 800), so a page
setup in reverse landscape becomes portrait; page 0 of the wide sample document is
800 by 600, so the same page setup becomes landscape. -/
theorem request_page_setup_sets_orientation_witness :
    sample_session.document = some sample_document ∧
    zathura_document_get_page sample_document 0 = some sample_page ∧
    (cb_print_request_page_setup sample_undef 0 sample_setup
        (some sample_session)).2.1.orientation = GtkPageOrientation.PORTRAIT ∧
    sample_wide_session.document = some sample_wide_document ∧
    zathura_document_get_page sample_wide_document 0 = some sample_wide_page ∧
    (cb_print_request_page_setup sample_undef 0 sample_setup
        (some sample_wide_session)).2.1.orientation = GtkPageOrientation.LANDSCAPE :=
  ⟨rfl, rfl,
    (((request_page_setup_sets_orientation sample_undef 0 sample_setup sample_session
      sample_document sample_page rfl rfl).2.2.2.2.2.2.1 600 800 rfl rfl).2
        (by decide)).1,
    rfl, rfl,
    (((request_page_setup_sets_orientation sample_undef 0 sample_setup sample_wide_session
      sample_wide_document sample_wide_page rfl rfl).2.2.2.2.2.2.1 800 600 rfl rfl).1
        (by decide)).1⟩

/-- C8: the handler has no guard for an absent page. The sample document has
pages 0, 1 and 2, so the lookup of page 3 fails; a page setup in reverse landscape
nevertheless has its orientation overwritten (with portrait or landscape, by one
call of the setter), whatever the reads of the absent page yield. -/
theorem request_page_setup_absent_page_overwrites :
    zathura_document_get_page sample_document 3 = none ∧
    ∀ undef : AbsentPageRead,
      (cb_print_request_page_setup undef 3 sample_setup
          (some sample_session)).2.1.orientation ≠ sample_setup.orientation ∧
      (cb_print_request_page_setup undef 3 sample_setup (some sample_session)).2.2.length = 1 := by
  refine ⟨rfl, ?_⟩
  intro undef
  by_cases hgt : undef.width.gt undef.height = true <;>
    simp [cb_print_request_page_setup, sample_session, sample_document,
      zathura_document_get_page, zathura_page_get_width, zathura_page_get_height, hgt,
      sample_setup]

/-- Counterexample to C4 as stated: with an absent drawing surface and everything
else present, the handler has already replaced the status text when it returns. -/
theorem draw_page_absent_surface_updates_status :
    cairo_of (some sample_context_no_cairo) = none ∧
    status_text (some sample_session) = some "/tmp/doc.pdf" ∧
    status_text (cb_print_draw_page sample_alloc (some sample_context_no_cairo) 0
      (some sample_session)).1 = some "Printing 0..." := by
  decide

/-- C4, amended: when the drawing surface of the print context, the document or the
page looked up at `page_number` is absent, the handler neither renders a page nor
acquires the render lock. When the print context, the session object, its document,
its user interface session or its status bar item is absent, the session (and
with it the status text) is unchanged and no call is made; otherwise, when only the
drawing surface or the page is absent, the status text has been set to
"Printing N...". -/
theorem draw_page_absent_no_render (alloc : CairoAlloc) (context : Option GtkPrintContext)
    (page_number : Int) (zathura : Option zathura_t)
    (h : cairo_of context = none ∨ document_of zathura = none ∨
      page_of zathura page_number = none) :
    (∀ c ∈ (cb_print_draw_page alloc context page_number zathura).2,
      c.is_render = false ∧ c.is_lock = false) ∧
    (draw_page_ready context zathura = false →
      (cb_print_draw_page alloc context page_number zathura).1 = zathura ∧
      (cb_print_draw_page alloc context page_number zathura).2 = []) ∧
    (draw_page_ready context zathura = true →
      status_text (cb_print_draw_page alloc context page_number zathura).1 =
        some ("Printing " ++ toString page_number ++ "...") ∧
      (cb_print_draw_page alloc context page_number zathura).2 =
        [Call.girara_statusbar_item_set_text
          ("Printing " ++ toString page_number ++ "...")]) := by
  have hstate := draw_page_state alloc context page_number zathura
  rcases draw_page_trace_cases alloc context page_number zathura with
    ⟨hr, ht⟩ | ⟨hr, _, ht⟩ | ⟨hr, ⟨cr, hcr⟩, ⟨page, hpage⟩, _, c, hc, ht⟩ |
    ⟨hr, c, z, cr, page, surface, hc, hz, hcr, hpage, _, ht⟩
  · rw [ht, hstate, hr]
    simp
  · rw [ht, hstate, hr]
    refine ⟨by simp [Call.is_render, Call.is_lock], by simp, ?_⟩
    intro _
    rcases zathura with _ | z
    · simp [draw_page_ready] at hr
    · simp [status_text, set_statusbar_file, printing_text]
  · exfalso
    rcases h with h | h | h
    · rw [hcr] at h; exact Option.noConfusion h
    · rw [page_of, h] at hpage; exact Option.noConfusion hpage
    · rw [hpage] at h; exact Option.noConfusion h
  · exfalso
    rcases h with h | h | h
    · rw [hc, cairo_of, hcr] at h; exact Option.noConfusion h
    · rw [page_of, h] at hpage; exact Option.noConfusion hpage
    · rw [hpage] at h; exact Option.noConfusion h

/-- Witness of C4, amended, on the print context without a drawing surface. -/
theorem draw_page_absent_no_render_witness :
    cairo_of (some sample_context_no_cairo) = none ∧
    ∀ c ∈ (cb_print_draw_page sample_alloc (some sample_context_no_cairo) 0
        (some sample_session)).2,
      c.is_render = false ∧ c.is_lock = false :=
  ⟨rfl,
    (draw_page_absent_no_render sample_alloc (some sample_context_no_cairo) 0
      (some sample_session) (Or.inl rfl)).1⟩

/-- C5: in a draw-page invocation that renders a page, the render lock is acquired
exactly once and released exactly once around the single page render -- the three
calls lock, render, unlock are consecutive -- the status text has been set before
the lock is taken, the temporary surface is set as source and painted after the lock
is released, and the only call made while the lock is held is the page render. In a
draw-page invocation that renders no page (it returned early) the lock is never
acquired. -/
theorem draw_page_lock_discipline (alloc : CairoAlloc) (context : Option GtkPrintContext)
    (page_number : Int) (zathura : Option zathura_t) :
    ((∃ c ∈ draw_page_calls alloc context page_number zathura, c.is_render = true) →
      (draw_page_calls alloc context page_number zathura).countP Call.is_lock = 1 ∧
      (draw_page_calls alloc context page_number zathura).countP Call.is_unlock = 1 ∧
      (draw_page_calls alloc context page_number zathura).countP Call.is_render = 1 ∧
      (∃ pre post render_thread page cr,
        draw_page_calls alloc context page_number zathura =
          pre ++ [Call.render_lock render_thread, Call.zathura_page_render page cr true,
            Call.render_unlock render_thread] ++ post ∧
        Call.girara_statusbar_item_set_text (printing_text page_number) ∈ pre ∧
        (∃ c s, Call.cairo_set_source_surface c s 0 0 ∈ post ∧ Call.cairo_paint c ∈ post)) ∧
      (∀ c ∈ calls_while_locked false (draw_page_calls alloc context page_number zathura),
        c.is_render = true)) ∧
    ((∀ c ∈ draw_page_calls alloc context page_number zathura, c.is_render = false) →
      ∀ c ∈ draw_page_calls alloc context page_number zathura, c.is_lock = false) := by
  unfold draw_page_calls
  rcases draw_page_trace_cases alloc context page_number zathura with
    ⟨_, ht⟩ | ⟨_, _, ht⟩ | ⟨_, _, _, _, _, _, ht⟩ |
    ⟨_, c, z, cr, page, surface, _, _, _, _, _, ht⟩
  · rw [ht]; simp
  · rw [ht]; simp [Call.is_render, Call.is_lock]
  · rw [ht]; simp [Call.is_render, Call.is_lock]
  · rw [ht]
    refine ⟨?_, ?_⟩
    · intro _
      refine ⟨?_, ?_, ?_, ?_, ?_⟩
      · simp [rendering_trace, List.countP_cons, Call.is_lock]
      · simp [rendering_trace, List.countP_cons, Call.is_unlock]
      · simp [rendering_trace, List.countP_cons, Call.is_render]
      · refine ⟨[ Call.girara_statusbar_item_set_text (printing_text page_number),
            Call.cairo_image_surface_create c.width.to_int c.height.to_int,
            Call.cairo_create surface,
            Call.cairo_save cr,
            Call.cairo_set_source_rgb cr 1 1 1,
            Call.cairo_rectangle cr 0 0 c.width c.height,
            Call.cairo_fill cr,
            Call.cairo_restore cr,
            Call.girara_debug (debug_text page_number) ],
          [ Call.cairo_set_source_surface cr surface 0 0,
            Call.cairo_paint cr,
            Call.cairo_destroy alloc.temp_cairo,
            Call.cairo_surface_destroy surface ],
          z.sync.render_thread, page, alloc.temp_cairo, ?_, ?_, cr, surface, ?_, ?_⟩ <;>
          simp [rendering_trace]
      · simp [rendering_trace, calls_while_locked, Call.is_render]
    · intro h
      exfalso
      have := h (Call.zathura_page_render page alloc.temp_cairo true)
        (by simp [rendering_trace])
      simp [Call.is_render] at this

/-- Witness of C5: drawing page 0 of the sample document renders a page, and the
only call made under the lock is that render. -/
theorem draw_page_lock_discipline_witness :
    (∃ c ∈ draw_page_calls sample_alloc (some sample_context) 0 (some sample_session),
      c.is_render = true) ∧
    (draw_page_calls sample_alloc (some sample_context) 0 (some sample_session)).countP
      Call.is_lock = 1 ∧
    calls_while_locked false
        (draw_page_calls sample_alloc (some sample_context) 0 (some sample_session)) =
      [Call.zathura_page_render sample_page (some 3) true] :=
  ⟨⟨Call.zathura_page_render sample_page (some 3) true, by decide, rfl⟩,
    ((draw_page_lock_discipline sample_alloc (some sample_context) 0
      (some sample_session)).1
        ⟨Call.zathura_page_render sample_page (some 3) true, by decide, rfl⟩).1,
    by decide⟩

/-- Counterexample to C6 as stated: a session with a present document for which
end-print does not set the status text to the file path. With the file path absent
(and everything else present), drawing page 2 and then ending the job leaves
"Printing 2..." in the status bar; with the user interface session absent,
end-print leaves the text it finds. -/
theorem end_print_leaves_status_text :
    (document_of (some sample_pathless_session)).isSome = true ∧
    sample_pathless_session.ui.session.isSome = true ∧
    sample_pathless_session.ui.statusbar.file.isSome = true ∧
    status_text (cb_print_end (cb_print_draw_page sample_alloc (some sample_context) 2
      (some sample_pathless_session)).1).1 = some "Printing 2..." ∧
    document_of (some sample_headless_session) = some sample_document ∧
    zathura_document_get_path sample_document = some "/tmp/doc.pdf" ∧
    status_text (cb_print_end (some sample_headless_session)).1 = some "ready" := by
  decide

/-- C6, amended: for every page number N, a draw-page invocation with the print
context, the document, the user interface session and the status bar item present
sets the status text to exactly "Printing N..." with N in decimal. When moreover
the file path of the document is present, an end-print invocation sets the status
text to that path, and so does end-print after any sequence of draw-page
invocations. -/
theorem status_text_round_trip (z : zathura_t) (document : zathura_document_t)
    (session : Handle) (item : girara_statusbar_item_t)
    (hdoc : z.document = some document) (hs : z.ui.session = some session)
    (hi : z.ui.statusbar.file = some item) :
    (∀ (alloc : CairoAlloc) (context : GtkPrintContext) (page_number : Int),
      status_text (cb_print_draw_page alloc (some context) page_number (some z)).1 =
        some ("Printing " ++ toString page_number ++ "...")) ∧
    (∀ path, zathura_document_get_path document = some path →
      status_text (cb_print_end (some z)).1 = some path ∧
      ∀ draws : List (CairoAlloc × Option GtkPrintContext × Int),
        status_text (cb_print_end (draw_pages draws (some z))).1 = some path) := by
  have hframe : frame_of (some z) = some (some document, z.print, some session, true, z.sync) := by
    simp [frame_of, hdoc, hs, hi]
  refine ⟨?_, ?_⟩
  · intro alloc context page_number
    rw [draw_page_state]
    simp [draw_page_ready, hdoc, hs, hi, status_text, set_statusbar_file, printing_text]
  · intro path hpath
    refine ⟨end_sets_path _ document path session ⟨_, _, hframe⟩ hpath, ?_⟩
    intro draws
    refine end_sets_path _ document path session ⟨z.sync, z.print, ?_⟩ hpath
    rw [draw_pages_frame, hframe]

/-- Witness of C6, amended, on the sample session: page 2, then a job of pages 0,
1 and 2 followed by end-print. -/
theorem status_text_round_trip_witness :
    sample_session.document = some sample_document ∧
    sample_session.ui.session = some 5 ∧
    sample_session.ui.statusbar.file = some { text := "/tmp/doc.pdf" } ∧
    status_text (cb_print_draw_page sample_alloc (some sample_context) 2
      (some sample_session)).1 = some "Printing 2..." ∧
    status_text (cb_print_end (draw_pages
      [(sample_alloc, some sample_context, 0), (sample_alloc, some sample_context, 1),
        (sample_alloc, some sample_context, 2)] (some sample_session))).1 =
      some "/tmp/doc.pdf" :=
  ⟨rfl, rfl, rfl,
    (status_text_round_trip sample_session sample_document 5 { text := "/tmp/doc.pdf" }
      rfl rfl rfl).1 sample_alloc sample_context 2,
    ((status_text_round_trip sample_session sample_document 5 { text := "/tmp/doc.pdf" }
      rfl rfl rfl).2 "/tmp/doc.pdf" rfl).2 _⟩

/-- C9: on the sample input every guard passes and a page is rendered. The print
context's cairo context is 1, the temporary surface is 2 and its own drawing
context is 3. The white rectangle is set up and filled through context 1, the print
context's; nothing but the page render goes through context 3 before surface 2 is
painted onto context 1. -/
theorem draw_page_background_target :
    sample_context.cairo = some 1 ∧ sample_alloc.surface = some 2 ∧
    sample_alloc.temp_cairo = some 3 ∧
    draw_page_calls sample_alloc (some sample_context) 0 (some sample_session) =
      [ Call.girara_statusbar_item_set_text "Printing 0...",
        Call.cairo_image_surface_create (some 595) (some 842),
        Call.cairo_create 2,
        Call.cairo_save 1,
        Call.cairo_set_source_rgb 1 1 1 1,
        Call.cairo_rectangle 1 0 0 (CDouble.finite 595) (CDouble.finite 842),
        Call.cairo_fill 1,
        Call.cairo_restore 1,
        Call.girara_debug "printing page 0 ...",
        Call.render_lock 9,
        Call.zathura_page_render sample_page (some 3) true,
        Call.render_unlock 9,
        Call.cairo_set_source_surface 1 2 0 0,
        Call.cairo_paint 1,
        Call.cairo_destroy (some 3),
        Call.cairo_surface_destroy 2 ] ∧
    Call.cairo_fill 3 ∉
      draw_page_calls sample_alloc (some sample_context) 0 (some sample_session) := by
  decide

/-- C10: a cairo constructor that fails returns an object in an error state, which
is not `NULL`, and the handler tests only for `NULL` (and, after `cairo_create`,
tests the print context's cairo context instead of the new one). Whether the
temporary surface 2 is in an error state or only its drawing context 3 is, the
handler does not return: it fills the background, takes the render lock, renders
the page, and paints onto the print context. -/
theorem draw_page_cairo_failure_continues :
    sample_alloc_surface_failed.surface = some 2 ∧
    sample_alloc_surface_failed.surface_failed = true ∧
    draw_page_calls sample_alloc_surface_failed (some sample_context) 0
        (some sample_session) =
      [ Call.girara_statusbar_item_set_text "Printing 0...",
        Call.cairo_image_surface_create (some 595) (some 842),
        Call.cairo_create 2,
        Call.cairo_save 1,
        Call.cairo_set_source_rgb 1 1 1 1,
        Call.cairo_rectangle 1 0 0 (CDouble.finite 595) (CDouble.finite 842),
        Call.cairo_fill 1,
        Call.cairo_restore 1,
        Call.girara_debug "printing page 0 ...",
        Call.render_lock 9,
        Call.zathura_page_render sample_page (some 3) true,
        Call.render_unlock 9,
        Call.cairo_set_source_surface 1 2 0 0,
        Call.cairo_paint 1,
        Call.cairo_destroy (some 3),
        Call.cairo_surface_destroy 2 ] ∧
    sample_alloc_temp_cairo_failed.temp_cairo = some 3 ∧
    sample_alloc_temp_cairo_failed.temp_cairo_failed = true ∧
    draw_page_calls sample_alloc_temp_cairo_failed (some sample_context) 0
        (some sample_session) =
      draw_page_calls sample_alloc_surface_failed (some sample_context) 0
        (some sample_session) := by
  decide

end ZathuraPrint
